import Mathlib

/-!
Verification of the aws-crt-cpp canary metrics pipeline: a shallow embedding of
`canary/MetricsPublisher.cpp` (enum string tables, the aggregation buffer, the
publish tick `s_OnPublishTask`, backup write and rehydration) and of
`source/http/HttpConnectionManager.cpp` (acquire, connection-setup delivery,
shutdown promise), with theorems about the spec-level claims.
-/

namespace AwsCrtCanary

/-! ## Enum string tables (MetricsPublisher.cpp, anonymous namespace) -/

/-- The `MetricUnitStr` table, 26 entries, in source order. -/
def MetricUnitStrTable : List String :=
  ["Seconds", "Microseconds", "Milliseconds", "Bytes", "Kilobytes", "Megabytes",
   "Gigabytes", "Terabytes", "Bits", "Kilobits", "Gigabits", "Terabits",
   "Percent", "Count", "Bytes%2FSecond", "Kilobytes%2FSecond",
   "Megabytes%2FSecond", "Gigabytes%2FSecond", "Terabytes%2FSecond",
   "Bits%2FSecond", "Kilobits%2FSecond", "Megabits%2FSecond",
   "Gigabits%2FSecond", "Terabits%2FSecond", "Counts%2FSecond", "None"]

/-- The `MetricNameStr` table, 15 entries, in source order. -/
def MetricNameStrTable : List String :=
  ["BytesUp", "BytesDown", "NumConnections", "BytesAllocated", "S3AddressCount",
   "SuccessfulTransfer", "FailedTransfer", "AvgEventLoopGroupTickElapsed",
   "AvgEventLoopTaskRunElapsed", "MinEventLoopGroupTickElapsed",
   "MinEventLoopTaskRunElapsed", "MaxEventLoopGroupTickElapsed",
   "MaxEventLoopTaskRunElapsed", "NumIOSubs", "Invalid"]

/-- The `TransferTypeStr` table, 3 entries, in source order. -/
def TransferTypeStrTable : List String := ["None", "SinglePart", "MultiPart"]

/-- Modelled from the spec: the enum declarations (`MetricUnit`, `MetricName`,
`MetricTransferType`) live in `MetricsPublisher.h`, which is not among the
provided sources. The conversion functions cast enum values to indices with
`static_cast<size_t>` and back with `(Enum)i`, so enum values are modelled as
the indices of their string tables; the sentinels are `MetricUnit::None`
(table index 25), `MetricName::Invalid` (table index 14) and
`MetricTransferType::None` (table index 0). -/
def sentinelMetricUnit : Nat := 25

def sentinelMetricName : Nat := 14

def sentinelTransferType : Nat := 0

/-- `UnitToStr`: out-of-range indices map to "None", else the table entry. -/
def UnitToStr (u : Nat) : String := (MetricUnitStrTable.get? u).getD "None"

/-- `MetricNameToStr`: out-of-range indices map to "None", else the table entry. -/
def MetricNameToStr (n : Nat) : String := (MetricNameStrTable.get? n).getD "None"

/-- `MetricTransferTypeToString`. -/
def MetricTransferTypeToString (t : Nat) : String :=
  (TransferTypeStrTable.get? t).getD "None"

/-- The linear scan each `StringTo...` function performs: first index whose
entry compares equal to the argument. -/
def scanTable (tbl : List String) (s : String) : Option Nat :=
  tbl.findIdx? (fun t => t == s)

/-- `StringToMetricUnit`: linear scan, `MetricUnit::None` when absent. -/
def StringToMetricUnit (s : String) : Nat :=
  (scanTable MetricUnitStrTable s).getD sentinelMetricUnit

/-- `StringToMetricName`: linear scan, `MetricName::Invalid` when absent. -/
def StringToMetricName (s : String) : Nat :=
  (scanTable MetricNameStrTable s).getD sentinelMetricName

/-- `StringToMetricTransferType`: linear scan, `MetricTransferType::None`
(index 0) when absent. -/
def StringToMetricTransferType (s : String) : Nat :=
  (scanTable TransferTypeStrTable s).getD sentinelTransferType

/-! ## Metric data model (MetricsPublisher.h/.cpp)

The C++ `Value` field is a `double`; it is embedded as an exact rational so
that the "exact sum" properties of the spec are statable. -/

structure Metric where
  name : Nat
  unit : Nat
  timestamp : Nat
  value : ℚ
deriving DecidableEq

/-- `MetricKey`: (name, Timestamp / 1000), truncating division. -/
abbrev MetricKey := Nat × Nat

def metricKey (m : Metric) : MetricKey := (m.name, m.timestamp / 1000)

/-- The publisher state: aggregation buffer + index, the task copy the tick
consumes, the backup log, and the publish-context override fields. -/
structure PubState where
  publishData : List Metric
  publishDataLU : List (MetricKey × Nat)
  publishDataTaskCopy : List Metric
  metricsBackup : List Metric
  namespaceField : Option String
  mTransferType : Nat
  transferTypeOverride : Option Nat
  platformNameOverride : Option String
  toolNameOverride : Option String
  instanceTypeOverride : Option String
  sendEncryptedOverride : Option Bool
  replayId : Option Nat
deriving DecidableEq

def initialPubState (ns : Option String) : PubState :=
  { publishData := [], publishDataLU := [], publishDataTaskCopy := [],
    metricsBackup := [], namespaceField := ns, mTransferType := 0,
    transferTypeOverride := none, platformNameOverride := none,
    toolNameOverride := none, instanceTypeOverride := none,
    sendEncryptedOverride := none, replayId := none }

/-- `m_publishDataLU.find(key)`: the C++ `std::map` lookup; the buffer holds at
most one entry per key, so an association-list scan is faithful. -/
def lookupLU (lu : List (MetricKey × Nat)) (k : MetricKey) : Option Nat :=
  (lu.find? (fun p => p.fst == k)).map Prod.snd

/-- In-place update of the element at an index, as `m_publishData[index]`. -/
def modifyIdx : List Metric → Nat → (Metric → Metric) → List Metric
  | [], _, _ => []
  | m :: rest, 0, f => f m :: rest
  | m :: rest, n + 1, f => m :: modifyIdx rest n f

/-- `AddDataPointInternal`: merge into the indexed bucket when the key is
present, else append and index the new bucket. -/
def addDataPointInternal (s : PubState) (newMetric : Metric) : PubState :=
  let k := metricKey newMetric
  match lookupLU s.publishDataLU k with
  | some index =>
    let newData := modifyIdx s.publishData index
      (fun metric => { metric with value := metric.value + newMetric.value })
    { s with publishData := newData }
  | none =>
    { s with
        publishData := s.publishData ++ [newMetric],
        publishDataLU := s.publishDataLU ++ [(k, s.publishData.length)] }

/-- `AddDataPoint` (takes the lock, then the internal add). -/
def AddDataPoint (s : PubState) (m : Metric) : PubState := addDataPointInternal s m

/-- `AddDataPoints` (one lock, internal add per element in order). -/
def AddDataPoints (s : PubState) (ms : List Metric) : PubState :=
  ms.foldl addDataPointInternal s

/-! ## The publish tick (s_OnPublishTask) -/

inductive TaskStatus
  | runReady
  | canceled
deriving DecidableEq

/-- Outcomes of the asynchronous collaborators a single tick interacts with:
the signer's result, the connection-acquire result, and whether
`NewClientStream` returns a stream. -/
structure TickEnv where
  signingError : Int
  connError : Int
  streamCreated : Bool
deriving DecidableEq

structure TickResult where
  state : PubState
  notifiedDrained : Bool
  dispatched : List Metric
  requestSent : Bool
  rescheduled : Bool
deriving DecidableEq

/-- The slice loop: repeatedly `push_back(taskCopy.back()); taskCopy.pop_back()`
up to `n` times, yielding (slice, remaining task copy). -/
def popBackSlice (l : List Metric) (n : Nat) : List Metric × List Metric :=
  (l.reverse.take n, (l.reverse.drop n).reverse)

/-- The send phase of a ready tick, after the task copy is known nonempty (or
freshly drained): pop at most 20 points, append them to the backup, prepare and
sign the request; `SchedulePublish` runs only inside the acquire-connection
callback, which the signer invokes only on signing success. -/
def sendPhase (env : TickEnv) (s : PubState) : TickResult :=
  let slice := (popBackSlice s.publishDataTaskCopy 20).fst
  let rest := (popBackSlice s.publishDataTaskCopy 20).snd
  let s2 := { s with
                publishDataTaskCopy := rest,
                metricsBackup := s.metricsBackup ++ slice }
  { state := s2,
    notifiedDrained := false,
    dispatched := slice,
    requestSent :=
      if env.signingError = 0 then
        (if env.connError = 0 then env.streamCreated else false)
      else false,
    rescheduled := if env.signingError = 0 then true else false }

/-- `s_OnPublishTask`. A non-ready status returns at once. With the task copy
empty and the live buffer empty, the tick only notifies the drained condition
(the `SchedulePublish()` call on that path is commented out in the source).
With the task copy empty and the live buffer nonempty, the buffer is moved into
the task copy and the index cleared. Then the send phase runs. -/
def s_OnPublishTask (status : TaskStatus) (env : TickEnv) (s : PubState) : TickResult :=
  if status ≠ TaskStatus.runReady then
    { state := s, notifiedDrained := false, dispatched := [],
      requestSent := false, rescheduled := false }
  else
    if s.publishDataTaskCopy.length = 0 then
      if s.publishData.length = 0 then
        { state := s, notifiedDrained := true, dispatched := [],
          requestSent := false, rescheduled := false }
      else
        sendPhase env
          { s with
              publishDataTaskCopy := s.publishData,
              publishData := [],
              publishDataLU := [] }
    else
      sendPhase env s

/-- A sequence of ready ticks, accumulating every dispatched slice in order. -/
def runTicksAcc : List TickEnv → PubState → List Metric × PubState
  | [], s => ([], s)
  | e :: es, s =>
    let r := s_OnPublishTask TaskStatus.runReady e s
    let rec' := runTicksAcc es r.state
    (r.dispatched ++ rec'.fst, rec'.snd)

/-- Iterated ready ticks (the rehydrate wait loop's publish cycles). -/
def drainAll : Nat → TickEnv → PubState → PubState
  | 0, _, s => s
  | fuel + 1, env, s => drainAll fuel env (s_OnPublishTask TaskStatus.runReady env s).state

/-! ## Publish-context getters (MetricsPublisher.cpp, lines 223-250) -/

structure CanaryAppOptions where
  platformName : String
  toolName : String
  instanceType : String
  sendEncrypted : Bool
deriving DecidableEq

def GetTransferType (s : PubState) : Nat :=
  s.transferTypeOverride.getD s.mTransferType

def GetPlatformName (opts : CanaryAppOptions) (s : PubState) : String :=
  s.platformNameOverride.getD opts.platformName

def GetToolName (opts : CanaryAppOptions) (s : PubState) : String :=
  s.toolNameOverride.getD opts.toolName

def GetInstanceType (opts : CanaryAppOptions) (s : PubState) : String :=
  s.instanceTypeOverride.getD opts.instanceType

def IsSendingEncrypted (opts : CanaryAppOptions) (s : PubState) : Bool :=
  s.sendEncryptedOverride.getD opts.sendEncrypted

/-! ## Backup rehydration (RehydrateBackup) -/

/-- One entry of the downloaded backup document's `Metrics` array. -/
structure BackupDocMetric where
  name : String
  unit : String
  timestamp : Nat
  value : ℚ
deriving DecidableEq

/-- The parsed backup document (parsing itself is an external collaborator). -/
structure BackupDoc where
  transferType : String
  platformName : String
  toolName : String
  instanceType : String
  encrypted : Bool
  metrics : List BackupDocMetric
deriving DecidableEq

/-- Construction of the replayed `Metric` from one document entry
(lines 517-531 of MetricsPublisher.cpp). -/
def parseBackupMetric (e : BackupDocMetric) : Metric :=
  { name := StringToMetricName e.name, unit := StringToMetricUnit e.unit,
    timestamp := e.timestamp, value := e.value }

/-- Lines 503-513: set every override (all fields but the namespace) from the
document and assign the tick-derived replay id. -/
def rehydrateApplyOverrides (doc : BackupDoc) (ticks : Nat) (s : PubState) : PubState :=
  { s with
      transferTypeOverride := some (StringToMetricTransferType doc.transferType),
      platformNameOverride := some doc.platformName,
      toolNameOverride := some doc.toolName,
      instanceTypeOverride := some doc.instanceType,
      sendEncryptedOverride := some doc.encrypted,
      replayId := some ticks }

/-- Lines 558-563: reset all six override fields to empty optionals. -/
def rehydrateClearOverrides (s : PubState) : PubState :=
  { s with
      transferTypeOverride := none,
      platformNameOverride := none,
      toolNameOverride := none,
      instanceTypeOverride := none,
      sendEncryptedOverride := none,
      replayId := none }

/-- The condition-variable flag the download-completion lambda shares with the
waiting caller of `RehydrateBackup`. -/
structure SignalState where
  signalVal : Bool
deriving DecidableEq

/-- The `GetObject` completion lambda (lines 481-494): on a non-success error
code it logs and returns before setting `signalVal`; only on success does it
set the flag and notify. -/
def rehydrateOnComplete (errorCode : Int) (w : SignalState) : SignalState :=
  if errorCode ≠ 0 then w else { signalVal := true }

inductive RehydrateOutcome
  | blockedForever (s : PubState)
  | completed (s : PubState)
deriving DecidableEq

structure DownloadResult where
  errorCode : Int
  doc : BackupDoc
deriving DecidableEq

/-- `RehydrateBackup`, given the download outcome. On a non-success download
the completion lambda never sets `signalVal`, so `signal.wait` never returns:
the call blocks forever with the state exactly as it was. On success: apply
the overrides, re-add every document point through the normal dedup path, run
publish ticks until drained, then clear the overrides. -/
def RehydrateBackup (dl : DownloadResult) (ticks fuel : Nat) (env : TickEnv)
    (s : PubState) : RehydrateOutcome :=
  if dl.errorCode ≠ 0 then
    RehydrateOutcome.blockedForever s
  else
    let s1 := rehydrateApplyOverrides dl.doc ticks s
    let s2 := (dl.doc.metrics.map parseBackupMetric).foldl addDataPointInternal s1
    let s3 := drainAll fuel env s2
    RehydrateOutcome.completed (rehydrateClearOverrides s3)

/-! ## Aggregator call sequences (for the order-independence claim) -/

inductive AddCall
  | one (m : Metric)
  | many (ms : List Metric)
deriving DecidableEq

def callPoints : AddCall → List Metric
  | .one m => [m]
  | .many ms => ms

def applyAddCall (s : PubState) : AddCall → PubState
  | .one m => AddDataPoint s m
  | .many ms => AddDataPoints s ms

def runAddCalls (s : PubState) (calls : List AddCall) : PubState :=
  calls.foldl applyAddCall s

def addCallsPoints (calls : List AddCall) : List Metric :=
  (calls.map callPoints).flatten

def sumValues (l : List Metric) : ℚ := (l.map Metric.value).sum

/-! ## HttpClientConnectionManager (HttpConnectionManager.cpp) -/

def AWS_OP_SUCCESS : Int := 0

/-- `AWS_ERROR_OOM` from aws-c-common's error table. -/
def AWS_ERROR_OOM : Int := 1

/-- Result of `AcquireConnection`: the returned bool, and whether the
underlying acquire was started (so `s_onConnectionSetup` will run). When the
allocation of the callback-args fails, the function returns `false` and the
user callback is never invoked. -/
structure AcquireOutcome where
  returnedTrue : Bool
  callbackStarted : Bool
deriving DecidableEq

def AcquireConnection (argsAllocOk : Bool) : AcquireOutcome :=
  if argsAllocOk then
    { returnedTrue := true, callbackStarted := true }
  else
    { returnedTrue := false, callbackStarted := false }

/-- What `s_onConnectionSetup` hands to the user callback: the connection (or
none), the error code, and whether the raw connection was released back to the
underlying manager. -/
structure SetupDelivery where
  connection : Option Nat
  errorCode : Int
  releasedBack : Bool
deriving DecidableEq

/-- `s_onConnectionSetup` (lines 188-219): a nonzero setup error delivers
(null, error); otherwise a failed `ManagedConnection` allocation releases the
connection and delivers (null, AWS_ERROR_OOM); otherwise the wrapped
connection is delivered with AWS_OP_SUCCESS. -/
def s_onConnectionSetup (conn : Nat) (errorCode : Int) (managedAllocOk : Bool) :
    SetupDelivery :=
  if errorCode ≠ 0 then
    { connection := none, errorCode := errorCode, releasedBack := false }
  else if ¬ managedAllocOk then
    { connection := none, errorCode := AWS_ERROR_OOM, releasedBack := true }
  else
    { connection := some conn, errorCode := AWS_OP_SUCCESS, releasedBack := false }

/-- Shutdown-relevant state of the manager wrapper: whether the constructor
registered the blocking-shutdown callback, whether `m_shutdownPromise` has been
fulfilled, the number of leased connections, and whether the manager's own
hold was released. -/
structure ManagerState where
  enableBlockingShutdown : Bool
  promiseSet : Bool
  leased : Nat
  releaseInvoked : Bool
deriving DecidableEq

/-- The constructor (lines 85-93): with `EnableBlockingShutdown` the underlying
manager is given `s_shutdownCompleted` as its shutdown callback; otherwise the
promise is fulfilled immediately, in the constructor itself. -/
def HttpClientConnectionManagerInit (enableBlockingShutdown : Bool) : ManagerState :=
  { enableBlockingShutdown := enableBlockingShutdown,
    promiseSet := !enableBlockingShutdown,
    leased := 0,
    releaseInvoked := false }

inductive MgrEvent
  | acquireSuccess
  | releaseConn
  | initiateShutdown
  | underlyingShutdownComplete
deriving DecidableEq

def mgrStep (s : ManagerState) : MgrEvent → ManagerState
  | .acquireSuccess => { s with leased := s.leased + 1 }
  | .releaseConn => { s with leased := s.leased - 1 }
  | .initiateShutdown => { s with releaseInvoked := true }
  | .underlyingShutdownComplete => { s with promiseSet := true }

def mgrRun (s : ManagerState) (es : List MgrEvent) : ManagerState :=
  es.foldl mgrStep s

/-- Modelled from the spec: the underlying `aws_http_connection_manager` (an
external C library, not among the sources) invokes the registered
`shutdown_complete_callback` only if one was registered (i.e. with
`EnableBlockingShutdown`), only after the manager's hold was released, and only
once every leased connection has been released/closed. -/
def mgrEventValid (s : ManagerState) : MgrEvent → Prop
  | .underlyingShutdownComplete =>
    s.leased = 0 ∧ s.releaseInvoked = true ∧ s.enableBlockingShutdown = true
  | _ => True

def mgrValidRun : ManagerState → List MgrEvent → Prop
  | _, [] => True
  | s, e :: es => mgrEventValid s e ∧ mgrValidRun (mgrStep s e) es

/-- Two states agree on every publish-context field (the namespace, the run
transfer type, the six override fields). -/
def SameCtx (s t : PubState) : Prop :=
  s.namespaceField = t.namespaceField ∧
  s.mTransferType = t.mTransferType ∧
  s.transferTypeOverride = t.transferTypeOverride ∧
  s.platformNameOverride = t.platformNameOverride ∧
  s.toolNameOverride = t.toolNameOverride ∧
  s.instanceTypeOverride = t.instanceTypeOverride ∧
  s.sendEncryptedOverride = t.sendEncryptedOverride ∧
  s.replayId = t.replayId

/-- The state of the publisher mid-replay on the success path of
`RehydrateBackup`: overrides applied, the document's points re-added, and the
publish/drain cycles run — the state the override-clearing block then sees. -/
def rehydrateReplayState (doc : BackupDoc) (ticks fuel : Nat) (env : TickEnv)
    (s : PubState) : PubState :=
  drainAll fuel env
    ((doc.metrics.map parseBackupMetric).foldl addDataPointInternal
      (rehydrateApplyOverrides doc ticks s))

/-! ## Sample data used by witnesses and counterexamples -/

/-- A BytesUp/Count point in second 0. -/
def sampleMetricA : Metric := { name := 0, unit := 13, timestamp := 100, value := 1 }

/-- Another BytesUp/Count point in the same second (500 ms later). -/
def sampleMetricB : Metric := { name := 0, unit := 13, timestamp := 600, value := 2 }

def envOk : TickEnv := { signingError := 0, connError := 0, streamCreated := true }

def envSignFail : TickEnv := { signingError := 1, connError := 0, streamCreated := false }

/-- The buffer after adding the two same-second sample points. -/
def dupState : PubState :=
  AddDataPoint (AddDataPoint (initialPubState none) sampleMetricA) sampleMetricB

/-- A state whose task copy still holds an undispatched point. -/
def stTaskCopy : PubState :=
  { initialPubState none with publishDataTaskCopy := [sampleMetricA] }

/-- An event run of the pool wrapper: one lease, shutdown initiated, the lease
released, then the underlying manager reports shutdown complete. -/
def demoEvents : List MgrEvent :=
  [MgrEvent.acquireSuccess, MgrEvent.initiateShutdown, MgrEvent.releaseConn,
   MgrEvent.underlyingShutdownComplete]

/-! ## Helper lemmas about the tick -/

theorem popBackSlice_append_perm (l : List Metric) (n : Nat) :
    List.Perm ((popBackSlice l n).fst ++ (popBackSlice l n).snd) l := by
  show List.Perm (l.reverse.take n ++ (l.reverse.drop n).reverse) l
  have h2 : List.Perm (l.reverse.take n ++ (l.reverse.drop n).reverse)
      (l.reverse.take n ++ l.reverse.drop n) :=
    List.Perm.append_left _ (List.reverse_perm _)
  refine h2.trans ?_
  rw [List.take_append_drop]
  exact List.reverse_perm l

theorem popBackSlice_length_le (l : List Metric) (n : Nat) :
    ((popBackSlice l n).fst).length ≤ n := by
  show (l.reverse.take n).length ≤ n
  rw [List.length_take]
  exact min_le_left _ _

theorem tick_empty_eq (env : TickEnv) (s : PubState)
    (h1 : s.publishDataTaskCopy = []) (h2 : s.publishData = []) :
    s_OnPublishTask TaskStatus.runReady env s =
      { state := s, notifiedDrained := true, dispatched := [],
        requestSent := false, rescheduled := false } := by
  simp [s_OnPublishTask, h1, h2]

theorem tick_drain_eq (env : TickEnv) (s : PubState)
    (h1 : s.publishDataTaskCopy = []) (h2 : s.publishData ≠ []) :
    s_OnPublishTask TaskStatus.runReady env s =
      sendPhase env
        { s with publishDataTaskCopy := s.publishData, publishData := [],
                 publishDataLU := [] } := by
  simp [s_OnPublishTask, h1, List.length_eq_zero, h2]

theorem tick_continue_eq (env : TickEnv) (s : PubState)
    (h1 : s.publishDataTaskCopy ≠ []) :
    s_OnPublishTask TaskStatus.runReady env s = sendPhase env s := by
  simp [s_OnPublishTask, List.length_eq_zero, h1]

theorem tick_dispatched_le (env : TickEnv) (s : PubState) :
    (s_OnPublishTask TaskStatus.runReady env s).dispatched.length ≤ 20 := by
  by_cases h1 : s.publishDataTaskCopy = []
  · by_cases h2 : s.publishData = []
    · rw [tick_empty_eq env s h1 h2]; simp
    · rw [tick_drain_eq env s h1 h2]; exact popBackSlice_length_le _ 20
  · rw [tick_continue_eq env s h1]; exact popBackSlice_length_le _ 20

theorem tick_no_new_drain (env : TickEnv) (s : PubState)
    (h : s.publishDataTaskCopy ≠ []) :
    (s_OnPublishTask TaskStatus.runReady env s).state.publishData = s.publishData ∧
    (s_OnPublishTask TaskStatus.runReady env s).state.publishDataLU = s.publishDataLU := by
  rw [tick_continue_eq env s h]
  exact ⟨rfl, rfl⟩

theorem tick_conserves (env : TickEnv) (s : PubState) :
    List.Perm
      ((s_OnPublishTask TaskStatus.runReady env s).dispatched ++
        ((s_OnPublishTask TaskStatus.runReady env s).state.publishDataTaskCopy ++
          (s_OnPublishTask TaskStatus.runReady env s).state.publishData))
      (s.publishDataTaskCopy ++ s.publishData) := by
  by_cases h1 : s.publishDataTaskCopy = []
  · by_cases h2 : s.publishData = []
    · rw [tick_empty_eq env s h1 h2]; simp [h1, h2]
    · rw [tick_drain_eq env s h1 h2]
      simp only [sendPhase, h1, List.append_nil, List.nil_append]
      exact popBackSlice_append_perm s.publishData 20
  · rw [tick_continue_eq env s h1]
    simp only [sendPhase]
    rw [← List.append_assoc]
    exact List.Perm.append_right _ (popBackSlice_append_perm s.publishDataTaskCopy 20)

theorem runTicksAcc_conserves (envs : List TickEnv) (s : PubState) :
    List.Perm
      ((runTicksAcc envs s).fst ++
        ((runTicksAcc envs s).snd.publishDataTaskCopy ++
          (runTicksAcc envs s).snd.publishData))
      (s.publishDataTaskCopy ++ s.publishData) := by
  induction envs generalizing s with
  | nil => simp [runTicksAcc]
  | cons e es ih =>
    simp only [runTicksAcc]
    rw [List.append_assoc]
    exact (List.Perm.append_left _
      (ih (s_OnPublishTask TaskStatus.runReady e s).state)).trans (tick_conserves e s)

theorem tick_backup_append (status : TaskStatus) (env : TickEnv) (s : PubState) :
    (s_OnPublishTask status env s).state.metricsBackup =
      s.metricsBackup ++ (s_OnPublishTask status env s).dispatched := by
  cases status with
  | canceled => simp [s_OnPublishTask]
  | runReady =>
    by_cases h1 : s.publishDataTaskCopy = []
    · by_cases h2 : s.publishData = []
      · rw [tick_empty_eq env s h1 h2]; simp
      · rw [tick_drain_eq env s h1 h2]; rfl
    · rw [tick_continue_eq env s h1]; rfl

theorem runTicksAcc_backup_append (envs : List TickEnv) (s : PubState) :
    (runTicksAcc envs s).snd.metricsBackup =
      s.metricsBackup ++ (runTicksAcc envs s).fst := by
  induction envs generalizing s with
  | nil => simp [runTicksAcc]
  | cons e es ih =>
    simp only [runTicksAcc]
    rw [ih (s_OnPublishTask TaskStatus.runReady e s).state,
      tick_backup_append TaskStatus.runReady e s, List.append_assoc]

/-! ## Context-field preservation helpers -/

theorem sameCtx_refl (s : PubState) : SameCtx s s :=
  ⟨rfl, rfl, rfl, rfl, rfl, rfl, rfl, rfl⟩

theorem sameCtx_trans {a b c : PubState} (h1 : SameCtx a b) (h2 : SameCtx b c) :
    SameCtx a c :=
  ⟨h1.1.trans h2.1, h1.2.1.trans h2.2.1, h1.2.2.1.trans h2.2.2.1,
   h1.2.2.2.1.trans h2.2.2.2.1, h1.2.2.2.2.1.trans h2.2.2.2.2.1,
   h1.2.2.2.2.2.1.trans h2.2.2.2.2.2.1, h1.2.2.2.2.2.2.1.trans h2.2.2.2.2.2.2.1,
   h1.2.2.2.2.2.2.2.trans h2.2.2.2.2.2.2.2⟩

theorem tick_sameCtx (status : TaskStatus) (env : TickEnv) (s : PubState) :
    SameCtx (s_OnPublishTask status env s).state s := by
  unfold s_OnPublishTask sendPhase
  split_ifs <;> exact ⟨rfl, rfl, rfl, rfl, rfl, rfl, rfl, rfl⟩

theorem drainAll_sameCtx (fuel : Nat) (env : TickEnv) :
    ∀ s : PubState, SameCtx (drainAll fuel env s) s := by
  induction fuel with
  | zero => intro s; exact sameCtx_refl s
  | succ n ih =>
    intro s
    exact sameCtx_trans (ih (s_OnPublishTask TaskStatus.runReady env s).state)
      (tick_sameCtx TaskStatus.runReady env s)

theorem add_sameCtx (s : PubState) (m : Metric) :
    SameCtx (addDataPointInternal s m) s := by
  cases h : lookupLU s.publishDataLU (metricKey m) with
  | none =>
    simp only [addDataPointInternal, h]
    exact ⟨rfl, rfl, rfl, rfl, rfl, rfl, rfl, rfl⟩
  | some i =>
    simp only [addDataPointInternal, h]
    exact ⟨rfl, rfl, rfl, rfl, rfl, rfl, rfl, rfl⟩

theorem foldl_add_sameCtx (ms : List Metric) :
    ∀ s : PubState, SameCtx (ms.foldl addDataPointInternal s) s := by
  induction ms with
  | nil => intro s; exact sameCtx_refl s
  | cons m rest ih =>
    intro s
    exact sameCtx_trans (ih (addDataPointInternal s m)) (add_sameCtx s m)

/-! ## Aggregation helpers -/

theorem modifyIdx_length (l : List Metric) (i : Nat) (f : Metric → Metric) :
    (modifyIdx l i f).length = l.length := by
  induction l generalizing i with
  | nil => rfl
  | cons m rest ih =>
    cases i with
    | zero => rfl
    | succ n => simp [modifyIdx, ih]

theorem applyAddCall_eq (s : PubState) (c : AddCall) :
    applyAddCall s c = (callPoints c).foldl addDataPointInternal s := by
  cases c <;> rfl

theorem runAddCalls_eq_foldl (calls : List AddCall) :
    ∀ s : PubState,
      runAddCalls s calls = (addCallsPoints calls).foldl addDataPointInternal s := by
  induction calls with
  | nil => intro s; rfl
  | cons c cs ih =>
    intro s
    show runAddCalls (applyAddCall s c) cs = _
    rw [ih, applyAddCall_eq]
    simp [addCallsPoints, List.foldl_append]

theorem sumValues_cons (m : Metric) (pts : List Metric) :
    sumValues (m :: pts) = m.value + sumValues pts := by
  simp [sumValues]

theorem add_from_empty (s : PubState) (m : Metric)
    (h1 : s.publishData = []) (h2 : s.publishDataLU = []) :
    addDataPointInternal s m =
      { s with publishData := [m], publishDataLU := [(metricKey m, 0)] } := by
  simp [addDataPointInternal, lookupLU, h1, h2]

theorem add_merge_existing (s : PubState) (m b : Metric) (k : MetricKey)
    (h1 : s.publishData = [b]) (h2 : s.publishDataLU = [(k, 0)])
    (hkey : metricKey m = k) :
    addDataPointInternal s m =
      { s with publishData := [{ b with value := b.value + m.value }] } := by
  have hlu : lookupLU s.publishDataLU (metricKey m) = some 0 := by
    simp [lookupLU, h2, hkey]
  simp [addDataPointInternal, hlu, h1, modifyIdx]

theorem foldl_add_same_key (k : MetricKey) (pts : List Metric) :
    ∀ (s : PubState) (b : Metric),
      s.publishData = [b] → s.publishDataLU = [(k, 0)] →
      (∀ m ∈ pts, metricKey m = k) →
      (pts.foldl addDataPointInternal s).publishData =
        [{ b with value := b.value + sumValues pts }] ∧
      (pts.foldl addDataPointInternal s).publishDataLU = [(k, 0)] := by
  induction pts with
  | nil =>
    intro s b h1 h2 _
    refine ⟨?_, h2⟩
    simp only [List.foldl_nil, sumValues, List.map_nil, List.sum_nil, add_zero, h1]
  | cons p rest ih =>
    intro s b h1 h2 hk
    have hkey : metricKey p = k := hk p (by simp)
    have hstep := add_merge_existing s p b k h1 h2 hkey
    rw [List.foldl_cons, hstep]
    have hres := ih { s with publishData := [{ b with value := b.value + p.value }] }
      { b with value := b.value + p.value } rfl h2 (fun m hm => hk m (by simp [hm]))
    refine ⟨?_, hres.2⟩
    rw [hres.1, sumValues_cons]
    simp [add_assoc]

theorem agg_single_bucket_core (ns : Option String) (calls : List AddCall) (k : MetricKey)
    (hne : addCallsPoints calls ≠ [])
    (hk : ∀ m ∈ addCallsPoints calls, metricKey m = k) :
    ∃ b, (runAddCalls (initialPubState ns) calls).publishData = [b] ∧
      metricKey b = k ∧ b.value = sumValues (addCallsPoints calls) := by
  rw [runAddCalls_eq_foldl]
  rcases hpts : addCallsPoints calls with _ | ⟨p, rest⟩
  · exact absurd hpts hne
  · rw [hpts] at hk
    rw [List.foldl_cons, add_from_empty (initialPubState ns) p rfl rfl]
    have hkp : metricKey p = k := hk p (by simp)
    have hres := foldl_add_same_key k rest
      { initialPubState ns with publishData := [p], publishDataLU := [(metricKey p, 0)] }
      p rfl (by rw [hkp]) (fun m hm => hk m (by simp [hm]))
    refine ⟨{ p with value := p.value + sumValues rest }, hres.1, hkp, ?_⟩
    rw [sumValues_cons]

/-! ## Claim theorems: the publish tick -/

/-- C1 counterexample: a ready tick that finds both the task copy and the live
buffer empty does not reschedule (it only notifies the drained condition), and
a ready tick whose signing step fails does not reschedule either — refuting
the claim that every ready tick schedules the next tick in every case. -/
theorem publish_reschedule_counterexample :
    (s_OnPublishTask TaskStatus.runReady envOk (initialPubState none)).rescheduled = false ∧
    (s_OnPublishTask TaskStatus.runReady envOk (initialPubState none)).notifiedDrained = true ∧
    (s_OnPublishTask TaskStatus.runReady envSignFail
      (AddDataPoint (initialPubState none) sampleMetricA)).rescheduled = false := by
  refine ⟨rfl, rfl, rfl⟩

/-- C1 (amended): a ready tick reschedules the next tick if and only if it
dispatches a batch (some data was pending) and the signing step succeeds;
connection-acquisition failure and HTTP-dispatch failure still reschedule, but
an empty drain or a signing failure stalls the cadence. -/
theorem publish_reschedule_iff (env : TickEnv) (s : PubState) :
    (s_OnPublishTask TaskStatus.runReady env s).rescheduled = true ↔
      ((s.publishDataTaskCopy ≠ [] ∨ s.publishData ≠ []) ∧ env.signingError = 0) := by
  by_cases h1 : s.publishDataTaskCopy = []
  · by_cases h2 : s.publishData = []
    · rw [tick_empty_eq env s h1 h2]
      simp [h1, h2]
    · rw [tick_drain_eq env s h1 h2]
      show (if env.signingError = 0 then true else false) = true ↔ _
      split_ifs with hs <;> simp [h1, h2, hs]
  · rw [tick_continue_eq env s h1]
    show (if env.signingError = 0 then true else false) = true ↔ _
    split_ifs with hs <;> simp [h1, hs]

/-- C2: a dispatched batch never exceeds 20 points; while the task copy still
holds undispatched points the live buffer and its index are untouched (no new
drain); and one tick — and any sequence of ticks — conserves the pending
points: dispatched plus remaining is a permutation of what was pending, so no
point is lost or duplicated. -/
theorem publish_batch_invariants (env : TickEnv) (s : PubState) :
    (s_OnPublishTask TaskStatus.runReady env s).dispatched.length ≤ 20 ∧
    (s.publishDataTaskCopy ≠ [] →
      (s_OnPublishTask TaskStatus.runReady env s).state.publishData = s.publishData ∧
      (s_OnPublishTask TaskStatus.runReady env s).state.publishDataLU = s.publishDataLU) ∧
    List.Perm
      ((s_OnPublishTask TaskStatus.runReady env s).dispatched ++
        ((s_OnPublishTask TaskStatus.runReady env s).state.publishDataTaskCopy ++
          (s_OnPublishTask TaskStatus.runReady env s).state.publishData))
      (s.publishDataTaskCopy ++ s.publishData) ∧
    ∀ envs : List TickEnv,
      List.Perm
        ((runTicksAcc envs s).fst ++
          ((runTicksAcc envs s).snd.publishDataTaskCopy ++
            (runTicksAcc envs s).snd.publishData))
        (s.publishDataTaskCopy ++ s.publishData) :=
  ⟨tick_dispatched_le env s, tick_no_new_drain env s, tick_conserves env s,
    fun envs => runTicksAcc_conserves envs s⟩

/-- C2 witness: at a state whose task copy holds one point, the no-new-drain
clause applies with its hypothesis discharged. -/
theorem publish_batch_invariants_witness :
    stTaskCopy.publishDataTaskCopy ≠ [] ∧
    (s_OnPublishTask TaskStatus.runReady envOk stTaskCopy).state.publishData =
      stTaskCopy.publishData :=
  ⟨by simp [stTaskCopy, initialPubState],
    (((publish_batch_invariants envOk stTaskCopy).2.1)
      (by simp [stTaskCopy, initialPubState])).1⟩

/-- C10: a tick invoked with the canceled status returns immediately: the
state (buffer, index, task copy, backup log, context) is exactly unchanged, no
batch is popped, nothing is sent, the drained condition is not notified, and
no reschedule happens. -/
theorem publish_nonready_noop (env : TickEnv) (s : PubState) :
    s_OnPublishTask TaskStatus.canceled env s =
      { state := s, notifiedDrained := false, dispatched := [],
        requestSent := false, rescheduled := false } := rfl

/-- C6 counterexample: two points added since process start (same name, same
second) are merged by the aggregator, so after the tick dispatches everything
the backup log holds a single merged bucket — not the two added points — and
they were popped from the back, refuting the full, non-deduplicated,
append-ordered log claim. -/
theorem backup_log_counterexample :
    (s_OnPublishTask TaskStatus.runReady envOk dupState).state.metricsBackup.length = 1 ∧
    [sampleMetricA, sampleMetricB].length = 2 ∧
    dupState.publishData.length = 1 := ⟨rfl, rfl, rfl⟩

/-- C6 (amended): the backup record is the append-ordered concatenation of the
batches the publish ticks dispatch — the post-dedup drained buckets in
dispatch order — not the raw sequence of added points: each tick appends to
the backup exactly the slice it dispatches, and over any run of ticks the
backup grows by exactly the concatenation of the dispatched slices. -/
theorem backup_appends_dispatched (status : TaskStatus) (env : TickEnv) (s : PubState) :
    ((s_OnPublishTask status env s).state.metricsBackup =
      s.metricsBackup ++ (s_OnPublishTask status env s).dispatched) ∧
    ∀ envs : List TickEnv,
      (runTicksAcc envs s).snd.metricsBackup =
        s.metricsBackup ++ (runTicksAcc envs s).fst :=
  ⟨tick_backup_append status env s, fun envs => runTicksAcc_backup_append envs s⟩

/-! ## Claim theorems: aggregation -/

/-- C3: for any sequence of AddDataPoint/AddDataPoints calls whose points all
share one (name, timestamp/1000) key, the buffer ends with exactly one bucket
for that key whose value is the exact sum of all contributed values (the C++
double is modelled as an exact rational); any permutation of the contributed
points yields a single bucket with the same value; and a point whose key is
already indexed is merged in place, never appended (the buffer length is
unchanged). -/
theorem aggregation_single_bucket (ns : Option String) (calls : List AddCall)
    (k : MetricKey) (hne : addCallsPoints calls ≠ [])
    (hk : ∀ m ∈ addCallsPoints calls, metricKey m = k) :
    (∃ b, (runAddCalls (initialPubState ns) calls).publishData = [b] ∧
      metricKey b = k ∧ b.value = sumValues (addCallsPoints calls)) ∧
    (∀ calls2 : List AddCall,
      List.Perm (addCallsPoints calls2) (addCallsPoints calls) →
      ∃ b2, (runAddCalls (initialPubState ns) calls2).publishData = [b2] ∧
        metricKey b2 = k ∧ b2.value = sumValues (addCallsPoints calls)) ∧
    (∀ (t : PubState) (m : Metric),
      lookupLU t.publishDataLU (metricKey m) ≠ none →
      (addDataPointInternal t m).publishData.length = t.publishData.length) := by
  refine ⟨agg_single_bucket_core ns calls k hne hk, ?_, ?_⟩
  · intro calls2 hp
    have hne2 : addCallsPoints calls2 ≠ [] := by
      intro h
      rw [h] at hp
      exact hne hp.symm.eq_nil
    have hk2 : ∀ m ∈ addCallsPoints calls2, metricKey m = k :=
      fun m hm => hk m (hp.mem_iff.mp hm)
    obtain ⟨b2, hb2, hbk, hbv⟩ := agg_single_bucket_core ns calls2 k hne2 hk2
    refine ⟨b2, hb2, hbk, ?_⟩
    rw [hbv]
    simp only [sumValues]
    exact List.Perm.sum_eq (hp.map Metric.value)
  · intro t m hl
    rcases h : lookupLU t.publishDataLU (metricKey m) with _ | i
    · exact absurd h hl
    · simp only [addDataPointInternal, h]
      exact modifyIdx_length _ _ _

/-- C3 witness: one AddDataPoint call and one AddDataPoints call, both in
second 0 of metric 0, produce a single bucket summing the two values. -/
theorem aggregation_single_bucket_witness :
    addCallsPoints [AddCall.one sampleMetricA, AddCall.many [sampleMetricB]] ≠ [] ∧
    (∃ b, (runAddCalls (initialPubState none)
        [AddCall.one sampleMetricA, AddCall.many [sampleMetricB]]).publishData = [b] ∧
      metricKey b = (0, 0) ∧
      b.value = sumValues
        (addCallsPoints [AddCall.one sampleMetricA, AddCall.many [sampleMetricB]])) :=
  ⟨by decide,
    (aggregation_single_bucket none [AddCall.one sampleMetricA, AddCall.many [sampleMetricB]]
      (0, 0) (by decide) (by decide)).1⟩

/-! ## Claim theorems: rehydration -/

/-- C5: when the backup download completes with a non-success error code, the
completion lambda logs and returns without setting `signalVal`, so the
condition-variable wait in `RehydrateBackup` is never satisfied: the call
blocks forever rather than returning, and the publisher state at the moment of
blocking is exactly the input state — no override applied, no replay id, the
aggregation buffer untouched. The claim (and the spec) say the failure aborts
immediately; the code instead deadlocks, contradicting the stated intent. -/
theorem rehydrate_download_error_behavior (doc : BackupDoc) (ticks fuel : Nat)
    (env : TickEnv) (s : PubState) (w : SignalState) :
    RehydrateBackup { errorCode := 1, doc := doc } ticks fuel env s =
      RehydrateOutcome.blockedForever s ∧
    rehydrateOnComplete 1 w = w := ⟨rfl, rfl⟩

/-- C7: on the success path of RehydrateBackup, throughout the replay (after
the overrides are applied, through every re-add and publish tick) all five
override fields and the replay id hold the document's values while the
namespace is untouched; the terminal block then clears all six fields as one
unit, and every getter on the final state returns the run-configuration value
again. -/
theorem rehydrate_overrides_lifecycle (doc : BackupDoc) (ticks fuel : Nat)
    (env : TickEnv) (s : PubState) (opts : CanaryAppOptions) :
    ((rehydrateReplayState doc ticks fuel env s).transferTypeOverride =
        some (StringToMetricTransferType doc.transferType) ∧
      (rehydrateReplayState doc ticks fuel env s).platformNameOverride =
        some doc.platformName ∧
      (rehydrateReplayState doc ticks fuel env s).toolNameOverride =
        some doc.toolName ∧
      (rehydrateReplayState doc ticks fuel env s).instanceTypeOverride =
        some doc.instanceType ∧
      (rehydrateReplayState doc ticks fuel env s).sendEncryptedOverride =
        some doc.encrypted ∧
      (rehydrateReplayState doc ticks fuel env s).replayId = some ticks ∧
      (rehydrateReplayState doc ticks fuel env s).namespaceField = s.namespaceField) ∧
    (RehydrateBackup { errorCode := 0, doc := doc } ticks fuel env s =
      RehydrateOutcome.completed
        (rehydrateClearOverrides (rehydrateReplayState doc ticks fuel env s))) ∧
    ((rehydrateClearOverrides (rehydrateReplayState doc ticks fuel env s)).transferTypeOverride = none ∧
      (rehydrateClearOverrides (rehydrateReplayState doc ticks fuel env s)).platformNameOverride = none ∧
      (rehydrateClearOverrides (rehydrateReplayState doc ticks fuel env s)).toolNameOverride = none ∧
      (rehydrateClearOverrides (rehydrateReplayState doc ticks fuel env s)).instanceTypeOverride = none ∧
      (rehydrateClearOverrides (rehydrateReplayState doc ticks fuel env s)).sendEncryptedOverride = none ∧
      (rehydrateClearOverrides (rehydrateReplayState doc ticks fuel env s)).replayId = none ∧
      (rehydrateClearOverrides (rehydrateReplayState doc ticks fuel env s)).namespaceField =
        s.namespaceField) ∧
    (GetTransferType (rehydrateClearOverrides (rehydrateReplayState doc ticks fuel env s)) =
        (rehydrateClearOverrides (rehydrateReplayState doc ticks fuel env s)).mTransferType ∧
      GetPlatformName opts (rehydrateClearOverrides (rehydrateReplayState doc ticks fuel env s)) =
        opts.platformName ∧
      GetToolName opts (rehydrateClearOverrides (rehydrateReplayState doc ticks fuel env s)) =
        opts.toolName ∧
      GetInstanceType opts (rehydrateClearOverrides (rehydrateReplayState doc ticks fuel env s)) =
        opts.instanceType ∧
      IsSendingEncrypted opts (rehydrateClearOverrides (rehydrateReplayState doc ticks fuel env s)) =
        opts.sendEncrypted) := by
  have hctx : SameCtx (rehydrateReplayState doc ticks fuel env s)
      (rehydrateApplyOverrides doc ticks s) :=
    sameCtx_trans
      (drainAll_sameCtx fuel env
        ((doc.metrics.map parseBackupMetric).foldl addDataPointInternal
          (rehydrateApplyOverrides doc ticks s)))
      (foldl_add_sameCtx (doc.metrics.map parseBackupMetric)
        (rehydrateApplyOverrides doc ticks s))
  refine ⟨⟨?_, ?_, ?_, ?_, ?_, ?_, ?_⟩, rfl, ⟨rfl, rfl, rfl, rfl, rfl, rfl, ?_⟩,
    rfl, rfl, rfl, rfl, rfl⟩
  · exact hctx.2.2.1
  · exact hctx.2.2.2.1
  · exact hctx.2.2.2.2.1
  · exact hctx.2.2.2.2.2.1
  · exact hctx.2.2.2.2.2.2.1
  · exact hctx.2.2.2.2.2.2.2
  · exact hctx.1
  · exact hctx.1

/-! ## Claim theorems: enum string tables -/

theorem scanTable_eq_none (tbl : List String) (s : String) (h : s ∉ tbl) :
    scanTable tbl s = none := by
  unfold scanTable
  rw [List.findIdx?_eq_none_iff]
  intro x hx
  rw [beq_eq_false_iff_ne]
  intro hxs
  exact h (hxs ▸ hx)

/-- C9: the three enum/string mappings are bidirectional on the table range —
for every in-range enum value, decoding its encoded string returns the value —
and every string outside a table decodes to that table's sentinel
(MetricUnit::None, MetricName::Invalid, MetricTransferType::None) rather than
failing. -/
theorem enum_string_tables_bidirectional :
    (∀ u : Fin 26, StringToMetricUnit (UnitToStr u.val) = u.val) ∧
    (∀ n : Fin 15, StringToMetricName (MetricNameToStr n.val) = n.val) ∧
    (∀ t : Fin 3, StringToMetricTransferType (MetricTransferTypeToString t.val) = t.val) ∧
    (∀ s, s ∉ MetricUnitStrTable → StringToMetricUnit s = sentinelMetricUnit) ∧
    (∀ s, s ∉ MetricNameStrTable → StringToMetricName s = sentinelMetricName) ∧
    (∀ s, s ∉ TransferTypeStrTable → StringToMetricTransferType s = sentinelTransferType) := by
  refine ⟨by decide, by decide, by decide, ?_, ?_, ?_⟩
  · intro s h
    unfold StringToMetricUnit
    rw [scanTable_eq_none _ _ h]
    rfl
  · intro s h
    unfold StringToMetricName
    rw [scanTable_eq_none _ _ h]
    rfl
  · intro s h
    unfold StringToMetricTransferType
    rw [scanTable_eq_none _ _ h]
    rfl

/-- C9 witness: the roundtrip at unit index 3 ("Bytes"), and the sentinel for
a string in no table. -/
theorem enum_string_tables_bidirectional_witness :
    StringToMetricUnit (UnitToStr 3) = 3 ∧
    StringToMetricUnit "Widget" = sentinelMetricUnit ∧
    StringToMetricName "Widget" = sentinelMetricName ∧
    StringToMetricTransferType "Widget" = sentinelTransferType :=
  ⟨enum_string_tables_bidirectional.1 ⟨3, by decide⟩,
    enum_string_tables_bidirectional.2.2.2.1 "Widget" (by decide),
    enum_string_tables_bidirectional.2.2.2.2.1 "Widget" (by decide),
    enum_string_tables_bidirectional.2.2.2.2.2 "Widget" (by decide)⟩

/-! ## Claim theorems: connection pool shutdown -/

theorem mgrValidRun_promise_origin (es : List MgrEvent) :
    ∀ s : ManagerState, mgrValidRun s es → s.promiseSet = false →
      (mgrRun s es).promiseSet = true →
      ∃ es1 es2, es = es1 ++ MgrEvent.underlyingShutdownComplete :: es2 ∧
        (mgrRun s es1).leased = 0 := by
  induction es with
  | nil =>
    intro s _ hfalse htrue
    simp only [mgrRun, List.foldl_nil] at htrue
    rw [hfalse] at htrue
    exact Bool.noConfusion htrue
  | cons e rest ih =>
    intro s hv hfalse htrue
    obtain ⟨hev, hv'⟩ := hv
    cases e with
    | underlyingShutdownComplete =>
      exact ⟨[], rest, rfl, hev.1⟩
    | acquireSuccess =>
      obtain ⟨es1, es2, heq, hlz⟩ :=
        ih (mgrStep s MgrEvent.acquireSuccess) hv' hfalse htrue
      exact ⟨MgrEvent.acquireSuccess :: es1, es2, by rw [List.cons_append, heq], hlz⟩
    | releaseConn =>
      obtain ⟨es1, es2, heq, hlz⟩ :=
        ih (mgrStep s MgrEvent.releaseConn) hv' hfalse htrue
      exact ⟨MgrEvent.releaseConn :: es1, es2, by rw [List.cons_append, heq], hlz⟩
    | initiateShutdown =>
      obtain ⟨es1, es2, heq, hlz⟩ :=
        ih (mgrStep s MgrEvent.initiateShutdown) hv' hfalse htrue
      exact ⟨MgrEvent.initiateShutdown :: es1, es2, by rw [List.cons_append, heq], hlz⟩

/-- C4 counterexample: with the options' default `EnableBlockingShutdown =
false` — which is what MetricsPublisher's pool uses — the constructor fulfils
`m_shutdownPromise` immediately, so after one lease and `InitiateShutdown` the
completion signal is already ready while one connection is still leased,
refuting "never before every leased connection has been released/closed". -/
theorem shutdown_promise_counterexample :
    (mgrRun (HttpClientConnectionManagerInit false)
      [MgrEvent.acquireSuccess, MgrEvent.initiateShutdown]).promiseSet = true ∧
    (mgrRun (HttpClientConnectionManagerInit false)
      [MgrEvent.acquireSuccess, MgrEvent.initiateShutdown]).leased = 1 := ⟨rfl, rfl⟩

/-- C4 (amended): only when the manager is constructed with
`EnableBlockingShutdown = true` does the shutdown completion signal become
ready strictly after every leased connection is released/closed: in every run
that respects the underlying manager's contract, the promise can only be set
by the underlying shutdown-complete callback, fired at a point where the
leased count is zero. With the default `EnableBlockingShutdown = false` the
promise is already set in the constructor. -/
theorem shutdown_promise_requires_full_release (es : List MgrEvent)
    (hv : mgrValidRun (HttpClientConnectionManagerInit true) es)
    (hp : (mgrRun (HttpClientConnectionManagerInit true) es).promiseSet = true) :
    ∃ es1 es2, es = es1 ++ MgrEvent.underlyingShutdownComplete :: es2 ∧
      (mgrRun (HttpClientConnectionManagerInit true) es1).leased = 0 :=
  mgrValidRun_promise_origin es (HttpClientConnectionManagerInit true) hv rfl hp

/-- C4 witness: the lease/shutdown/release/complete run is valid, its promise
ends set, and the theorem locates the completion at a point with zero leases. -/
theorem shutdown_promise_requires_full_release_witness :
    mgrValidRun (HttpClientConnectionManagerInit true) demoEvents ∧
    ∃ es1 es2, demoEvents = es1 ++ MgrEvent.underlyingShutdownComplete :: es2 ∧
      (mgrRun (HttpClientConnectionManagerInit true) es1).leased = 0 := by
  have hv : mgrValidRun (HttpClientConnectionManagerInit true) demoEvents := by
    simp [demoEvents, mgrValidRun, mgrEventValid, mgrStep, HttpClientConnectionManagerInit]
  exact ⟨hv, shutdown_promise_requires_full_release demoEvents hv rfl⟩

/-! ## Claim theorems: connection acquisition failures -/

/-- C8 counterexample: when the allocation of the callback-args inside
`AcquireConnection` fails, the function returns `false` and the acquire
callback is never started — the allocation failure is not delivered through
the callback as the claim states. -/
theorem acquire_alloc_counterexample :
    (AcquireConnection false).returnedTrue = false ∧
    (AcquireConnection false).callbackStarted = false := ⟨rfl, rfl⟩

/-- C8 (amended): a connect/TLS failure delivers its non-success error code
with a null connection through the acquire callback; a failed allocation of
the managed-connection wrapper is delivered through the callback as the
distinct code AWS_ERROR_OOM (with the raw connection released back, no
crash/abort); but a failed allocation of the callback-args is reported by
`AcquireConnection` returning false without the callback ever being
invoked. -/
theorem connection_failure_delivery :
    (∀ (conn : Nat) (err : Int) (allocOk : Bool), err ≠ 0 →
      s_onConnectionSetup conn err allocOk =
        { connection := none, errorCode := err, releasedBack := false }) ∧
    (∀ conn : Nat, s_onConnectionSetup conn 0 false =
      { connection := none, errorCode := AWS_ERROR_OOM, releasedBack := true }) ∧
    AWS_ERROR_OOM ≠ AWS_OP_SUCCESS ∧
    AcquireConnection true = { returnedTrue := true, callbackStarted := true } ∧
    AcquireConnection false = { returnedTrue := false, callbackStarted := false } := by
  refine ⟨?_, fun conn => rfl, by decide, rfl, rfl⟩
  intro conn err allocOk h
  simp [s_onConnectionSetup, h]

/-- C8 witness: a connect failure with code 5 is delivered as (null, 5). -/
theorem connection_failure_delivery_witness :
    ((5 : Int) ≠ 0) ∧
    s_onConnectionSetup 7 5 true =
      { connection := none, errorCode := 5, releasedBack := false } :=
  ⟨by decide, connection_failure_delivery.1 7 5 true (by decide)⟩

end AwsCrtCanary
